import Mathlib

/-!
Verification development for the jj-starship prompt module.

Shallow embedding of the Rust sources into Lean 4:
the configuration layer (src/config.rs), the output formatter
(src/output.rs), the Git status collector (src/git.rs) with the git2
library modelled as an explicit oracle record, and the CLI dispatch
(src/main.rs).

Naming note: a few Rust identifiers are renamed here (pfx instead of
the Rust spelling for the section that shows the on-symbol part, and
envPfx for the environment-variable namespace argument); every other
name follows the source.
-/

namespace JjStarship

/-- Modelled from the spec: ANSI color constants from src/color.rs, a file
that is not under src/. Section 1 of the spec treats them as pure data;
the standard ANSI escape values are used, and no theorem below depends on
the concrete values. -/
def RESET : String := "\x1b[0m"

/-- Modelled from the spec: blue ANSI color constant, pure data. -/
def BLUE : String := "\x1b[34m"

/-- Modelled from the spec: green ANSI color constant, pure data. -/
def GREEN : String := "\x1b[32m"

/-- Modelled from the spec: purple ANSI color constant, pure data. -/
def PURPLE : String := "\x1b[35m"

/-- Modelled from the spec: red ANSI color constant, pure data. -/
def RED : String := "\x1b[31m"

/-- Default symbol for JJ repos (src/config.rs DEFAULT_JJ_SYMBOL). -/
def DEFAULT_JJ_SYMBOL : String := "󱗆 "

/-- Default symbol for Git repos (src/config.rs DEFAULT_GIT_SYMBOL). -/
def DEFAULT_GIT_SYMBOL : String := " "

/-- Display options for a repo type (src/config.rs DisplayConfig).
The field show_pfx embeds the Rust field controlling the on-symbol part. -/
structure DisplayConfig where
  show_pfx : Bool
  show_name : Bool
  show_id : Bool
  show_status : Bool
  show_color : Bool
deriving DecidableEq, Repr

/-- DisplayConfig.all_visible from src/config.rs. -/
def DisplayConfig.all_visible : DisplayConfig :=
  { show_pfx := true, show_name := true, show_id := true
    show_status := true, show_color := true }

/-- Configuration options (src/config.rs Config). Strings are modelled as
Lean strings; truncate_name counts characters as in the Rust code. -/
structure Config where
  truncate_name : Nat
  id_length : Nat
  jj_symbol : String
  git_symbol : String
  jj_display : DisplayConfig
  git_display : DisplayConfig
deriving DecidableEq, Repr

/-- Config default values (src/config.rs impl Default for Config). -/
def Config.default : Config :=
  { truncate_name := 0, id_length := 8
    jj_symbol := DEFAULT_JJ_SYMBOL, git_symbol := DEFAULT_GIT_SYMBOL
    jj_display := DisplayConfig.all_visible
    git_display := DisplayConfig.all_visible }

/-- Config.truncate from src/config.rs: truncate a string to a maximum
number of characters, adding an ellipsis if needed. Rust strings traverse
by chars, embedded here as the underlying character list of a Lean
string. -/
def Config.truncate (cfg : Config) (s : String) : String :=
  if cfg.truncate_name = 0 ∨ s.data.length ≤ cfg.truncate_name then s
  else if cfg.truncate_name ≤ 1 then "…"
  else ⟨s.data.take (cfg.truncate_name - 1)⟩ ++ "…"

/-- CLI display flags for a repo type (src/config.rs DisplayFlags).
The field no_pfx embeds the Rust flag suppressing the on-symbol part. -/
structure DisplayFlags where
  no_pfx : Bool
  no_name : Bool
  no_id : Bool
  no_status : Bool
  no_color : Bool
deriving DecidableEq, Repr

/-- The process environment, modelled as a partial map from variable
names to values. A lookup that Rust reports as Err corresponds to the
variable being absent, hence none. -/
def Env : Type := String → Option String

/-- DisplayFlags.into_config from src/config.rs: each show switch is on
exactly when the CLI suppression flag is off and the namespaced
environment variable is absent. envPfx embeds the env namespace argument
of the Rust function. -/
def DisplayFlags.into_config (flags : DisplayFlags) (envPfx : String)
    (env : Env) : DisplayConfig :=
  { show_pfx := !flags.no_pfx && (env (envPfx ++ "_PREFIX")).isNone
    show_name := !flags.no_name && (env (envPfx ++ "_NAME")).isNone
    show_id := !flags.no_id && (env (envPfx ++ "_ID")).isNone
    show_status := !flags.no_status && (env (envPfx ++ "_STATUS")).isNone
    show_color := !flags.no_color && (env (envPfx ++ "_COLOR")).isNone }

/-- JJ repository status info (struct JjInfo from src/jj.rs, fields as
constructed and consumed in src/output.rs and its tests). -/
structure JjInfo where
  change_id : String
  bookmark : Option String
  empty_desc : Bool
  conflict : Bool
  divergent : Bool
  has_remote : Bool
  is_synced : Bool
deriving DecidableEq, Repr

/-- Git repository status info (src/git.rs GitInfo). -/
structure GitInfo where
  branch : Option String
  head_short : String
  staged : Nat
  modified : Nat
  untracked : Nat
  deleted : Nat
  conflicted : Nat
  ahead : Nat
  behind : Nat
deriving DecidableEq, Repr

/-- format_segment from src/output.rs: wrap text in a color and the reset
marker when show_color is on, else the bare text. -/
def formatSegment (text color : String) (show_color : Bool) : String :=
  if show_color then color ++ text ++ RESET else text

/-- The name rendered for a JJ snapshot in format_jj (src/output.rs lines
34 to 37): the truncated bookmark when present, else the change id. -/
def jjName (info : JjInfo) (cfg : Config) : String :=
  match info.bookmark with
  | some bm => cfg.truncate bm
  | none => info.change_id

/-- The output string of format_jj after the on-symbol part
(src/output.rs lines 28 to 31). -/
def jjOut1 (cfg : Config) : String :=
  if cfg.jj_display.show_pfx then
    "on " ++ formatSegment cfg.jj_symbol BLUE cfg.jj_display.show_color
  else ""

/-- The output string of format_jj after the name segment
(src/output.rs lines 39 to 41). -/
def jjOut2 (info : JjInfo) (cfg : Config) : String :=
  if cfg.jj_display.show_name then
    jjOut1 cfg ++ formatSegment (jjName info cfg) PURPLE cfg.jj_display.show_color
  else jjOut1 cfg

/-- The output string of format_jj after the id segment, which is skipped
when the name equals the change id (src/output.rs lines 44 to 50). -/
def jjOut3 (info : JjInfo) (cfg : Config) : String :=
  if cfg.jj_display.show_id ∧ jjName info cfg ≠ info.change_id then
    (if jjOut2 info cfg ≠ "" then jjOut2 info cfg ++ " " else jjOut2 info cfg)
      ++ formatSegment ("(" ++ info.change_id ++ ")") GREEN cfg.jj_display.show_color
  else jjOut2 info cfg

/-- The JJ status indicator string built in format_jj (src/output.rs
lines 54 to 66), in the fixed priority order. -/
def jjStatusStr (info : JjInfo) : String :=
  (if info.conflict then "!" else "")
    ++ (if info.divergent then "⇔" else "")
    ++ (if info.empty_desc then "?" else "")
    ++ (if info.has_remote && !info.is_synced then "⇡" else "")

/-- The status-append step of format_jj (src/output.rs lines 53 to 75),
applied to the output accumulated so far. -/
def jjStatusApply (info : JjInfo) (cfg : Config) (out : String) : String :=
  if cfg.jj_display.show_status ∧ jjStatusStr info ≠ "" then
    (if out ≠ "" then out ++ " " else out)
      ++ formatSegment ("[" ++ jjStatusStr info ++ "]") RED cfg.jj_display.show_color
  else out

/-- format_jj from src/output.rs: render a JJ snapshot as the prompt
string. -/
def format_jj (info : JjInfo) (cfg : Config) : String :=
  jjStatusApply info cfg (jjOut3 info cfg)

/-- The name rendered for a Git snapshot in format_git (src/output.rs
lines 99 to 102): the truncated branch when attached, else HEAD. -/
def gitName (info : GitInfo) (cfg : Config) : String :=
  match info.branch with
  | some b => cfg.truncate b
  | none => "HEAD"

/-- The output string of format_git after the on-symbol part
(src/output.rs lines 88 to 95). -/
def gitOut1 (cfg : Config) : String :=
  if cfg.git_display.show_pfx then
    "on " ++ formatSegment cfg.git_symbol BLUE cfg.git_display.show_color
  else ""

/-- The output string of format_git after the name segment
(src/output.rs lines 98 to 104). -/
def gitOut2 (info : GitInfo) (cfg : Config) : String :=
  if cfg.git_display.show_name then
    gitOut1 cfg ++ formatSegment (gitName info cfg) PURPLE cfg.git_display.show_color
  else gitOut1 cfg

/-- The output string of format_git after the id segment (src/output.rs
lines 107 to 113). -/
def gitOut3 (info : GitInfo) (cfg : Config) : String :=
  if cfg.git_display.show_id then
    (if gitOut2 info cfg ≠ "" then gitOut2 info cfg ++ " " else gitOut2 info cfg)
      ++ formatSegment ("(" ++ info.head_short ++ ")") GREEN cfg.git_display.show_color
  else gitOut2 info cfg

/-- The file-state flag part of the Git status string (src/output.rs
lines 120 to 134), in the fixed order. -/
def gitFlagsStr (info : GitInfo) : String :=
  (if 0 < info.conflicted then "=" else "")
    ++ (if 0 < info.staged then "+" else "")
    ++ (if 0 < info.modified then "!" else "")
    ++ (if 0 < info.untracked then "?" else "")
    ++ (if 0 < info.deleted then "✘" else "")

/-- The ahead and behind part of the Git status string (src/output.rs
lines 137 to 142). Rust usize values print in decimal, as toString on
Nat does. -/
def gitArrowsStr (info : GitInfo) : String :=
  (if 0 < info.ahead then "⇡" ++ toString info.ahead else "")
    ++ (if 0 < info.behind then "⇣" ++ toString info.behind else "")

/-- The full Git status indicator string built in format_git
(src/output.rs lines 117 to 142). -/
def gitStatusStr (info : GitInfo) : String :=
  gitFlagsStr info ++ gitArrowsStr info

/-- The status-append step of format_git (src/output.rs lines 116 to
151). -/
def gitStatusApply (info : GitInfo) (cfg : Config) (out : String) : String :=
  if cfg.git_display.show_status ∧ gitStatusStr info ≠ "" then
    (if out ≠ "" then out ++ " " else out)
      ++ formatSegment ("[" ++ gitStatusStr info ++ "]") RED cfg.git_display.show_color
  else out

/-- format_git from src/output.rs: render a Git snapshot as the prompt
string. -/
def format_git (info : GitInfo) (cfg : Config) : String :=
  gitStatusApply info cfg (gitOut3 info cfg)

/-- Which of the canonical Git flag characters is switched on for a
snapshot, following the count tests of src/output.rs lines 120 to 134. -/
def gitFlagOn (info : GitInfo) (c : Char) : Bool :=
  if c = '=' then decide (0 < info.conflicted)
  else if c = '+' then decide (0 < info.staged)
  else if c = '!' then decide (0 < info.modified)
  else if c = '?' then decide (0 < info.untracked)
  else if c = '✘' then decide (0 < info.deleted)
  else false

/-- One entry of the git2 status list, as the bits tested by the counting
loop of src/git.rs lines 51 to 81. -/
structure StatusEntry where
  conflicted : Bool
  indexNew : Bool
  indexModified : Bool
  indexDeleted : Bool
  indexRenamed : Bool
  indexTypechange : Bool
  wtModified : Bool
  wtTypechange : Bool
  wtDeleted : Bool
  wtNew : Bool
deriving DecidableEq, Repr

/-- The five file-state counters of src/git.rs collect. -/
structure FileCounts where
  staged : Nat
  modified : Nat
  untracked : Nat
  deleted : Nat
  conflicted : Nat
deriving DecidableEq, Repr

/-- One iteration of the status counting loop of src/git.rs lines 51 to
81: a conflicted entry bumps only the conflicted counter and skips the
rest of the body; otherwise each group of bits is tested in turn. -/
def statusStep (c : FileCounts) (e : StatusEntry) : FileCounts :=
  if e.conflicted then { c with conflicted := c.conflicted + 1 }
  else
    let c := if e.indexNew || e.indexModified || e.indexDeleted
        || e.indexRenamed || e.indexTypechange then
      { c with staged := c.staged + 1 } else c
    let c := if e.wtModified || e.wtTypechange then
      { c with modified := c.modified + 1 } else c
    let c := if e.wtDeleted then { c with deleted := c.deleted + 1 } else c
    let c := if e.wtNew then { c with untracked := c.untracked + 1 } else c
    c

/-- The whole counting loop of src/git.rs collect, starting from zeroed
counters. -/
def countStatuses (entries : List StatusEntry) : FileCounts :=
  entries.foldl statusStep ⟨0, 0, 0, 0, 0⟩

/-- A git2 reference as used by src/git.rs: its shorthand name, when one
exists, and the result of peeling it to a commit, giving the full hash
string of the commit id. -/
structure GitRef where
  shorthand : Option String
  peelToCommit : Except String String

/-- A git2 branch as used by get_ahead_behind: the result of looking up
its upstream tracking reference. -/
structure GitBranch where
  upstream : Except String GitRef

/-- Oracle for the git2 repository calls made by src/git.rs: each field
records what the library returns for the corresponding call on this
repository. -/
structure GitRepo where
  statuses : Except String (List StatusEntry)
  head : Except String GitRef
  headDetached : Except String Bool
  headSymbolicTarget : Option String
  findBranchLocal : String → Except String GitBranch
  graphAheadBehind : String → String → Except String (Nat × Nat)

/-- Strip a leading pattern from a string, as Rust str strip of a leading
pattern: some remainder when the pattern leads, else none. -/
def stripPfx (p s : String) : Option String :=
  if p.data.isPrefixOf s.data then some ⟨s.data.drop p.data.length⟩ else none

/-- get_ahead_behind from src/git.rs: ahead and behind counts relative to
upstream. A detached head yields a successful zero pair; a missing branch
name, a failed branch or upstream lookup, a failed peel, or a failed graph
computation yields an error. -/
def get_ahead_behind (repo : GitRepo) (head : GitRef) :
    Except String (Nat × Nat) :=
  match repo.headDetached with
  | .error e => .error e
  | .ok true => .ok (0, 0)
  | .ok false =>
    match head.shorthand with
    | none => .error "no branch name"
    | some sh =>
      match repo.findBranchLocal sh with
      | .error e => .error e
      | .ok branch =>
        match branch.upstream with
        | .error e => .error e
        | .ok up =>
          match head.peelToCommit with
          | .error e => .error e
          | .ok localOid =>
            match up.peelToCommit with
            | .error e => .error e
            | .ok upstreamOid => repo.graphAheadBehind localOid upstreamOid

/-- collect from src/git.rs, over the git2 oracle. The openRes argument
is the result of Repository open on the repo root. Rust slices the full
hash by bytes; a git hash is ASCII hex, so characters and bytes agree and
the slice is embedded as a character take. -/
def collect (openRes : Except String GitRepo) (id_length : Nat) :
    Except String GitInfo :=
  match openRes with
  | .error e => .error ("open: " ++ e)
  | .ok repo =>
    match repo.statuses with
    | .error e => .error ("statuses: " ++ e)
    | .ok entries =>
      let counts := countStatuses entries
      match repo.head with
      | .error _ =>
        let branch := repo.headSymbolicTarget.bind (stripPfx "refs/heads/")
        .ok { branch := branch, head_short := "empty"
              staged := counts.staged, modified := counts.modified
              untracked := counts.untracked, deleted := counts.deleted
              conflicted := counts.conflicted, ahead := 0, behind := 0 }
      | .ok head =>
        match repo.headDetached with
        | .error e => .error ("head_detached: " ++ e)
        | .ok detached =>
          let branch := if detached then none else head.shorthand
          match head.peelToCommit with
          | .error e => .error ("peel_to_commit: " ++ e)
          | .ok full_hash =>
            let head_short : String :=
              ⟨full_hash.data.take (min id_length full_hash.data.length)⟩
            let ab := match get_ahead_behind repo head with
              | .ok p => p
              | .error _ => (0, 0)
            .ok { branch := branch, head_short := head_short
                  staged := counts.staged, modified := counts.modified
                  untracked := counts.untracked, deleted := counts.deleted
                  conflicted := counts.conflicted
                  ahead := ab.1, behind := ab.2 }

/-- The repository classification returned by detection, as matched in
src/main.rs run_prompt. -/
inductive RepoType where
  | jj
  | jjColocated
  | git
  | noRepo
deriving DecidableEq, Repr

/-- The subcommands of src/main.rs. -/
inductive Command where
  | prompt
  | detect
deriving DecidableEq, Repr

/-- run_prompt from src/main.rs with both backend features enabled, over
the detection result and the backend collection results: every failure
path returns none, so nothing is printed. -/
def run_prompt (repoType : RepoType) (repoRoot : Option String)
    (jjRes : Except String JjInfo) (gitRes : Except String GitInfo)
    (cfg : Config) : Option String :=
  match repoType with
  | .jj | .jjColocated =>
    match repoRoot with
    | none => none
    | some _ =>
      match jjRes with
      | .error _ => none
      | .ok info => some (format_jj info cfg)
  | .git =>
    match repoRoot with
    | none => none
    | some _ =>
      match gitRes with
      | .error _ => none
      | .ok info => some (format_git info cfg)
  | .noRepo => none

/-- The exit code of main from src/main.rs lines 102 to 162, as a Nat:
0 for ExitCode SUCCESS and 1 for ExitCode FAILURE. The cwd argument is
the resolved working directory, absent when neither the cwd option nor
the process current directory is available; promptOut is what run_prompt
returned and inRepo what detection reported. -/
def mainExit (cwd : Option String) (cmd : Option Command)
    (_promptOut : Option String) (inRepo : Bool) : Nat :=
  match cwd with
  | none => 1
  | some _ =>
    match cmd.getD Command.prompt with
    | .prompt => 0
    | .detect => if inRepo then 0 else 1

/-- What the prompt action writes to standard output in src/main.rs lines
148 to 153: the run_prompt string when present, else nothing. -/
def promptOutput (promptOut : Option String) : String :=
  promptOut.getD ""

/-- The canonical join of the format_jj segments with an arbitrary
per-segment wrapper, used to state the color law: each emitted segment is
the wrapper applied to its visible text and its color, and the separator
spaces depend only on which earlier sections are switched on. -/
def jjWrapJoin (info : JjInfo) (cfg : Config)
    (wrap : String → String → String) : String :=
  (if cfg.jj_display.show_pfx then "on " ++ wrap cfg.jj_symbol BLUE else "")
    ++ (if cfg.jj_display.show_name then wrap (jjName info cfg) PURPLE else "")
    ++ (if cfg.jj_display.show_id ∧ jjName info cfg ≠ info.change_id then
          (if cfg.jj_display.show_pfx ∨ cfg.jj_display.show_name then " " else "")
            ++ wrap ("(" ++ info.change_id ++ ")") GREEN
        else "")
    ++ (if cfg.jj_display.show_status ∧ jjStatusStr info ≠ "" then
          (if cfg.jj_display.show_pfx ∨ cfg.jj_display.show_name
              ∨ (cfg.jj_display.show_id ∧ jjName info cfg ≠ info.change_id) then
            " " else "")
            ++ wrap ("[" ++ jjStatusStr info ++ "]") RED
        else "")

/-- A concrete JJ snapshot whose bookmark text equals its change id. -/
def infoDup : JjInfo :=
  { change_id := "main", bookmark := some "main", empty_desc := false
    conflict := false, divergent := false, has_remote := false
    is_synced := true }

/-- A concrete JJ snapshot with a bookmark distinct from the change id. -/
def infoW : JjInfo :=
  { change_id := "yzxv1234", bookmark := some "feature", empty_desc := true
    conflict := true, divergent := false, has_remote := false
    is_synced := true }

/-- A concrete configuration with every section visible, color off, no
symbols and no truncation. -/
def cfgPlain : Config :=
  { truncate_name := 0, id_length := 8, jj_symbol := "", git_symbol := ""
    jj_display := { show_pfx := true, show_name := true, show_id := true
                    show_status := true, show_color := false }
    git_display := DisplayConfig.all_visible }

/-- A concrete git2 head reference on branch main. -/
def headA : GitRef :=
  { shorthand := some "main", peelToCommit := .ok "abcdef1234" }

/-- A concrete git2 oracle: clean status list, attached head, and a
branch lookup that fails, so ahead and behind cannot be resolved. -/
def repoA : GitRepo :=
  { statuses := .ok [], head := .ok headA, headDetached := .ok false
    headSymbolicTarget := none
    findBranchLocal := fun _ => .error "branch not found"
    graphAheadBehind := fun _ _ => .error "unreachable" }

/-- The snapshot that collect produces on repoA with id length 8. -/
def infoA8 : GitInfo :=
  { branch := some "main", head_short := "abcdef12"
    staged := 0, modified := 0, untracked := 0, deleted := 0
    conflicted := 0, ahead := 0, behind := 0 }

/-- A concrete status entry: one untracked file. -/
def entryU : StatusEntry :=
  { conflicted := false, indexNew := false, indexModified := false
    indexDeleted := false, indexRenamed := false, indexTypechange := false
    wtModified := false, wtTypechange := false, wtDeleted := false
    wtNew := true }

/-- A concrete git2 oracle for a repository with no commits yet: head is
unresolvable, the symbolic ref target is a local branch, and one
untracked file exists. -/
def repoB : GitRepo :=
  { statuses := .ok [entryU], head := .error "unborn branch"
    headDetached := .ok false
    headSymbolicTarget := some "refs/heads/main"
    findBranchLocal := fun _ => .error "branch not found"
    graphAheadBehind := fun _ _ => .error "unreachable" }

/-! ## Helper lemmas -/

/-- A string is empty exactly when its character list is empty. -/
theorem str_eq_empty_iff (s : String) : s = "" ↔ s.data = [] := by
  rw [String.ext_iff]

/-- An append of strings is empty exactly when both parts are. -/
theorem append_eq_empty_iff (s t : String) :
    s ++ t = "" ↔ s = "" ∧ t = "" := by
  rw [str_eq_empty_iff, str_eq_empty_iff, str_eq_empty_iff,
    String.data_append]
  exact List.append_eq_nil

/-- A rendered segment of nonempty text is nonempty in both color
modes. -/
theorem formatSegment_ne_empty (t c : String) (b : Bool) (h : t ≠ "") :
    formatSegment t c b ≠ "" := by
  cases b <;> simp [formatSegment, append_eq_empty_iff, h]

/-- A string that starts with the on marker is nonempty. -/
theorem on_append_ne_empty (x : String) : "on " ++ x ≠ "" := by
  simp [append_eq_empty_iff]

/-- Stripping a pattern from a string that starts with it returns the
remainder. -/
theorem stripPfx_append (p rest : String) :
    stripPfx p (p ++ rest) = some rest := by
  unfold stripPfx
  rw [String.data_append, if_pos (by simp [List.isPrefixOf_iff_prefix]),
    List.drop_left]

/-! ## Claim theorems -/

/-- C2 counterexample: the claim asserts that truncate at maximum 1 is a
single ellipsis glyph for every string, but on the one-character string
a the code returns the string unchanged, because the character count does
not exceed the maximum. -/
theorem truncate_claim_counterexample :
    ({ Config.default with truncate_name := 1 } : Config).truncate "a" = "a"
      ∧ ("a" : String) ≠ "…" := by
  constructor
  · rfl
  · decide

/-- C2 (amended): truncate at maximum 0 is the identity; truncate is the
identity whenever the maximum is at least the character count; truncate
at maximum 1 collapses to a single ellipsis glyph when the string has
more than one character; and for 1 < n < charCount(s) the result is
exactly n characters, the first n-1 characters of s followed by one
ellipsis glyph. Counting is by character of the underlying list, so no
multi-byte encoding unit is ever split. -/
theorem truncate_spec (cfg : Config) (s : String) :
    (cfg.truncate_name = 0 → cfg.truncate s = s) ∧
    (s.data.length ≤ cfg.truncate_name → cfg.truncate s = s) ∧
    (cfg.truncate_name = 1 → 1 < s.data.length → cfg.truncate s = "…") ∧
    (1 < cfg.truncate_name → cfg.truncate_name < s.data.length →
      (cfg.truncate s).data
          = s.data.take (cfg.truncate_name - 1) ++ ['…'] ∧
      (cfg.truncate s).data.length = cfg.truncate_name) := by
  refine ⟨?_, ?_, ?_, ?_⟩
  · intro h
    unfold Config.truncate
    rw [if_pos (Or.inl h)]
  · intro h
    unfold Config.truncate
    rw [if_pos (Or.inr h)]
  · intro h1 h2
    unfold Config.truncate
    rw [h1, if_neg (by omega), if_pos (by omega)]
  · intro h1 h2
    unfold Config.truncate
    rw [if_neg (by omega), if_neg (by omega)]
    constructor
    · rw [String.data_append]
    · rw [String.data_append, List.length_append, List.length_take]
      simp only [List.length_singleton]
      omega

/-- C2 witness: at maximum 3 the six-character string abcdef truncates to
its first two characters plus the ellipsis glyph, three characters in
all. -/
theorem truncate_spec_witness :
    (({ Config.default with truncate_name := 3 } : Config).truncate
        "abcdef").data
      = ("abcdef" : String).data.take 2 ++ ['…'] ∧
    (({ Config.default with truncate_name := 3 } : Config).truncate
        "abcdef").data.length = 3 :=
  (truncate_spec { Config.default with truncate_name := 3 } "abcdef").2.2.2
    (by decide) (by decide)

/-- C7: for every backend namespace and every display section, the
resolved show switch is on exactly when the CLI suppression flag is off
and the namespaced environment variable is absent; in particular the
presence of the variable with any value, the empty string included,
disables the section. -/
theorem into_config_env_law (flags : DisplayFlags) (envPfx : String)
    (env : Env) :
    ((flags.into_config envPfx env).show_pfx = true ↔
      flags.no_pfx = false ∧ env (envPfx ++ "_PREFIX") = none) ∧
    ((flags.into_config envPfx env).show_name = true ↔
      flags.no_name = false ∧ env (envPfx ++ "_NAME") = none) ∧
    ((flags.into_config envPfx env).show_id = true ↔
      flags.no_id = false ∧ env (envPfx ++ "_ID") = none) ∧
    ((flags.into_config envPfx env).show_status = true ↔
      flags.no_status = false ∧ env (envPfx ++ "_STATUS") = none) ∧
    ((flags.into_config envPfx env).show_color = true ↔
      flags.no_color = false ∧ env (envPfx ++ "_COLOR") = none) ∧
    (∀ v, env (envPfx ++ "_ID") = some v →
      (flags.into_config envPfx env).show_id = false) := by
  refine ⟨?_, ?_, ?_, ?_, ?_, ?_⟩ <;>
    simp [DisplayFlags.into_config, Option.isNone_iff_eq_none,
      Bool.and_eq_true, Bool.not_eq_true']
  intro v hv
  simp [hv]

/-- C10: in the Git status counting loop, an entry carrying the
conflicted bit bumps only the conflicted counter, leaving the staged,
modified, untracked and deleted counters untouched, whatever other index
or working-tree bits the entry carries. -/
theorem conflicted_entry_counts (c : FileCounts) (e : StatusEntry)
    (h : e.conflicted = true) :
    (statusStep c e).conflicted = c.conflicted + 1 ∧
    (statusStep c e).staged = c.staged ∧
    (statusStep c e).modified = c.modified ∧
    (statusStep c e).untracked = c.untracked ∧
    (statusStep c e).deleted = c.deleted := by
  simp [statusStep, h]

/-- C10 witness: an entry with the conflicted bit and every other bit set
contributes one to the conflicted counter and nothing elsewhere. -/
theorem conflicted_entry_counts_witness :
    (statusStep ⟨0, 0, 0, 0, 0⟩
        ⟨true, true, true, true, true, true, true, true, true, true⟩).conflicted
        = 0 + 1 ∧
    (statusStep ⟨0, 0, 0, 0, 0⟩
        ⟨true, true, true, true, true, true, true, true, true, true⟩).staged = 0 ∧
    (statusStep ⟨0, 0, 0, 0, 0⟩
        ⟨true, true, true, true, true, true, true, true, true, true⟩).modified = 0 ∧
    (statusStep ⟨0, 0, 0, 0, 0⟩
        ⟨true, true, true, true, true, true, true, true, true, true⟩).untracked = 0 ∧
    (statusStep ⟨0, 0, 0, 0, 0⟩
        ⟨true, true, true, true, true, true, true, true, true, true⟩).deleted = 0 :=
  conflicted_entry_counts ⟨0, 0, 0, 0, 0⟩
    ⟨true, true, true, true, true, true, true, true, true, true⟩ rfl

/-- C9: whenever Git status collection reaches the short-id computation,
the short id is exactly the first min(idLength, L) characters of the full
hash of L characters: the slice bound is clamped by the hash length, so
the computation is total and never reads past the end of the hash. -/
theorem head_short_clamped (openRes : Except String GitRepo)
    (repo : GitRepo) (entries : List StatusEntry) (head : GitRef)
    (detached : Bool) (full_hash : String) (n : Nat) (info : GitInfo)
    (h1 : openRes = .ok repo) (h2 : repo.statuses = .ok entries)
    (h3 : repo.head = .ok head) (h4 : repo.headDetached = .ok detached)
    (h5 : head.peelToCommit = .ok full_hash)
    (h6 : collect openRes n = .ok info) :
    info.head_short.data = full_hash.data.take (min n full_hash.data.length) ∧
    info.head_short.data.length = min n full_hash.data.length ∧
    min n full_hash.data.length ≤ full_hash.data.length ∧
    info.head_short.data <+: full_hash.data ∧
    (full_hash.data.length ≤ n → info.head_short = full_hash) := by
  subst h1
  simp only [collect, h2, h3, h4, h5] at h6
  obtain rfl : _ = info := Except.ok.inj h6
  refine ⟨rfl, ?_, Nat.min_le_right n full_hash.data.length, ?_, ?_⟩
  · simp
  · exact List.take_prefix _ _
  · intro hle
    rw [String.ext_iff]
    show full_hash.data.take (min n full_hash.data.length) = full_hash.data
    rw [Nat.min_eq_right hle, List.take_length]

/-- C9 witness: on a concrete oracle with a ten-character hash and id
length 8, the short id is the first eight characters. -/
theorem head_short_clamped_witness :
    infoA8.head_short.data
        = ("abcdef1234" : String).data.take
            (min 8 ("abcdef1234" : String).data.length) ∧
    infoA8.head_short.data.length
        = min 8 ("abcdef1234" : String).data.length ∧
    min 8 ("abcdef1234" : String).data.length
        ≤ ("abcdef1234" : String).data.length ∧
    infoA8.head_short.data <+: ("abcdef1234" : String).data ∧
    (("abcdef1234" : String).data.length ≤ 8 →
      infoA8.head_short = "abcdef1234") :=
  head_short_clamped (.ok repoA) repoA [] headA false "abcdef1234" 8 infoA8
    rfl rfl rfl rfl rfl rfl

/-- C5: when Git status collection reaches the ahead and behind step, a
failing resolution never aborts the collection: any error from
get_ahead_behind leaves a successful snapshot with both counts zero, a
detached head makes get_ahead_behind itself return a successful zero
pair, and collection returns a snapshot in every case. -/
theorem ahead_behind_failure_safe (openRes : Except String GitRepo)
    (repo : GitRepo) (entries : List StatusEntry) (head : GitRef)
    (detached : Bool) (full_hash : String) (n : Nat)
    (h1 : openRes = .ok repo) (h2 : repo.statuses = .ok entries)
    (h3 : repo.head = .ok head) (h4 : repo.headDetached = .ok detached)
    (h5 : head.peelToCommit = .ok full_hash) :
    (∀ e, get_ahead_behind repo head = .error e →
      ∃ info, collect openRes n = .ok info ∧ info.ahead = 0 ∧ info.behind = 0) ∧
    (detached = true → get_ahead_behind repo head = .ok (0, 0)) ∧
    (∃ info, collect openRes n = .ok info) := by
  subst h1
  refine ⟨?_, ?_, ?_⟩
  · intro e he
    have hcoll : collect (.ok repo) n = .ok
        { branch := if detached then none else head.shorthand
          head_short := ⟨full_hash.data.take (min n full_hash.data.length)⟩
          staged := (countStatuses entries).staged
          modified := (countStatuses entries).modified
          untracked := (countStatuses entries).untracked
          deleted := (countStatuses entries).deleted
          conflicted := (countStatuses entries).conflicted
          ahead := 0, behind := 0 } := by
      simp only [collect, h2, h3, h4, h5, he]
    exact ⟨_, hcoll, rfl, rfl⟩
  · intro hd
    subst hd
    simp [get_ahead_behind, h4]
  · refine
      ⟨{ branch := if detached then none else head.shorthand,
         head_short := ⟨full_hash.data.take (min n full_hash.data.length)⟩,
         staged := (countStatuses entries).staged,
         modified := (countStatuses entries).modified,
         untracked := (countStatuses entries).untracked,
         deleted := (countStatuses entries).deleted,
         conflicted := (countStatuses entries).conflicted,
         ahead := (match get_ahead_behind repo head with
           | .ok p => p
           | .error _ => (0, 0)).1,
         behind := (match get_ahead_behind repo head with
           | .ok p => p
           | .error _ => (0, 0)).2 }, ?_⟩
    simp only [collect, h2, h3, h4, h5]

/-- C5 witness: on a concrete oracle whose branch lookup fails, the
resolution error is downgraded to zero counts and collection succeeds. -/
theorem ahead_behind_failure_safe_witness :
    ∃ info, collect (.ok repoA) 8 = .ok info ∧
      info.ahead = 0 ∧ info.behind = 0 :=
  (ahead_behind_failure_safe (.ok repoA) repoA [] headA false
      "abcdef1234" 8 rfl rfl rfl rfl rfl).1
    "branch not found" rfl

/-- C6: for a repository with no commits yet, where head is not
resolvable, collection still succeeds: the branch is the symbolic-ref
target stripped of the refs/heads/ marker when resolvable and absent
otherwise, the short id is the literal placeholder token empty, ahead and
behind are zero, and the five file-state counts come from the normal
counting loop over the status list. -/
theorem empty_repo_collect (openRes : Except String GitRepo)
    (repo : GitRepo) (entries : List StatusEntry) (err : String) (n : Nat)
    (h1 : openRes = .ok repo) (h2 : repo.statuses = .ok entries)
    (h3 : repo.head = .error err) :
    collect openRes n = .ok
      { branch := repo.headSymbolicTarget.bind (stripPfx "refs/heads/")
        head_short := "empty"
        staged := (countStatuses entries).staged
        modified := (countStatuses entries).modified
        untracked := (countStatuses entries).untracked
        deleted := (countStatuses entries).deleted
        conflicted := (countStatuses entries).conflicted
        ahead := 0, behind := 0 } ∧
    (∀ b, repo.headSymbolicTarget = some ("refs/heads/" ++ b) →
      repo.headSymbolicTarget.bind (stripPfx "refs/heads/") = some b) ∧
    (repo.headSymbolicTarget = none →
      repo.headSymbolicTarget.bind (stripPfx "refs/heads/") = none) := by
  subst h1
  refine ⟨?_, ?_, ?_⟩
  · simp only [collect, h2, h3]
  · intro b hb
    rw [hb]
    exact stripPfx_append "refs/heads/" b
  · intro hb
    rw [hb]
    rfl

/-- C6 witness: a concrete oracle for a fresh repository with one
untracked file: the branch comes from the symbolic ref, the short id is
the placeholder, the untracked count is one and every other count and
the ahead and behind counts are zero. -/
theorem empty_repo_collect_witness :
    collect (.ok repoB) 8 = .ok
      { branch := repoB.headSymbolicTarget.bind (stripPfx "refs/heads/")
        head_short := "empty"
        staged := (countStatuses [entryU]).staged
        modified := (countStatuses [entryU]).modified
        untracked := (countStatuses [entryU]).untracked
        deleted := (countStatuses [entryU]).deleted
        conflicted := (countStatuses [entryU]).conflicted
        ahead := 0, behind := 0 } ∧
    countStatuses [entryU] = ⟨0, 0, 1, 0, 0⟩ ∧
    repoB.headSymbolicTarget.bind (stripPfx "refs/heads/") = some "main" :=
  ⟨(empty_repo_collect (.ok repoB) repoB [entryU] "unborn branch" 8
      rfl rfl rfl).1,
    by decide,
    (empty_repo_collect (.ok repoB) repoB [entryU] "unborn branch" 8
      rfl rfl rfl).2.1 "main" rfl⟩

/-- C3: with a resolved working directory, the default prompt action
always exits 0, whatever run_prompt produced; and every failure path of
run_prompt, a missing repository, a missing repo root, or a failed
status collection for either backend, yields no output at all. -/
theorem prompt_exit_zero (cwd : String) (cmd : Option Command)
    (promptOut : Option String) (inRepo : Bool) (repoRoot : Option String)
    (jjRes : Except String JjInfo) (gitRes : Except String GitInfo)
    (cfg : Config)
    (hc : cmd = none ∨ cmd = some Command.prompt) :
    mainExit (some cwd) cmd promptOut inRepo = 0 ∧
    run_prompt RepoType.noRepo repoRoot jjRes gitRes cfg = none ∧
    (∀ rt, run_prompt rt none jjRes gitRes cfg = none) ∧
    (∀ e, jjRes = .error e →
      run_prompt RepoType.jj repoRoot jjRes gitRes cfg = none ∧
      run_prompt RepoType.jjColocated repoRoot jjRes gitRes cfg = none) ∧
    (∀ e, gitRes = .error e →
      run_prompt RepoType.git repoRoot jjRes gitRes cfg = none) ∧
    promptOutput none = "" := by
  refine ⟨?_, rfl, ?_, ?_, ?_, rfl⟩
  · rcases hc with h | h <;> subst h <;> rfl
  · intro rt
    cases rt <;> rfl
  · intro e he
    subst he
    cases repoRoot <;> exact ⟨rfl, rfl⟩
  · intro e he
    subst he
    cases repoRoot <;> rfl

/-- C3 witness: with the subcommand omitted and run_prompt failing on a
Git collection error, the exit code is still 0 and the output is
empty. -/
theorem prompt_exit_zero_witness :
    mainExit (some "/home") none none true = 0 ∧
    run_prompt RepoType.noRepo none (.error "jj") (.error "git") cfgPlain
      = none ∧
    (∀ rt, run_prompt rt none (.error "jj") (.error "git") cfgPlain
      = none) ∧
    (∀ e, (.error "jj" : Except String JjInfo) = .error e →
      run_prompt RepoType.jj none (.error "jj") (.error "git") cfgPlain
          = none ∧
      run_prompt RepoType.jjColocated none (.error "jj") (.error "git")
          cfgPlain = none) ∧
    (∀ e, (.error "git" : Except String GitInfo) = .error e →
      run_prompt RepoType.git none (.error "jj") (.error "git") cfgPlain
        = none) ∧
    promptOutput none = "" :=
  prompt_exit_zero "/home" none none true none (.error "jj")
    (.error "git") cfgPlain (Or.inl rfl)

/-- C4: the Git status-flag string is the flags part followed by the
arrows part; the flags part is, character for character, the fixed list
of the five symbols filtered by which counts are nonzero, so its symbols
always appear subset-ordered in the fixed order; each symbol occurs in
the flags part exactly when its count is nonzero; and the arrows part
appends the up arrow with the ahead count exactly when ahead is
positive, then the down arrow with the behind count exactly when behind
is positive. -/
theorem git_flag_order (info : GitInfo) (cfg : Config) :
    gitStatusStr info = gitFlagsStr info ++ gitArrowsStr info ∧
    (gitFlagsStr info).data = ['=', '+', '!', '?', '✘'].filter (gitFlagOn info) ∧
    (('=' ∈ (gitFlagsStr info).data) ↔ 0 < info.conflicted) ∧
    (('+' ∈ (gitFlagsStr info).data) ↔ 0 < info.staged) ∧
    (('!' ∈ (gitFlagsStr info).data) ↔ 0 < info.modified) ∧
    (('?' ∈ (gitFlagsStr info).data) ↔ 0 < info.untracked) ∧
    (('✘' ∈ (gitFlagsStr info).data) ↔ 0 < info.deleted) ∧
    gitArrowsStr info
        = (if 0 < info.ahead then "⇡" ++ toString info.ahead else "")
          ++ (if 0 < info.behind then "⇣" ++ toString info.behind else "") ∧
    format_git info cfg = gitStatusApply info cfg (gitOut3 info cfg) := by
  have hdata : (gitFlagsStr info).data
      = ['=', '+', '!', '?', '✘'].filter (gitFlagOn info) := by
    rcases Nat.eq_zero_or_pos info.conflicted with h1 | h1 <;>
      rcases Nat.eq_zero_or_pos info.staged with h2 | h2 <;>
      rcases Nat.eq_zero_or_pos info.modified with h3 | h3 <;>
      rcases Nat.eq_zero_or_pos info.untracked with h4 | h4 <;>
      rcases Nat.eq_zero_or_pos info.deleted with h5 | h5 <;>
      simp [gitFlagsStr, gitFlagOn, h1, h2, h3, h4, h5, Nat.pos_iff_ne_zero,
        String.data_append, List.filter]
  refine ⟨rfl, hdata, ?_, ?_, ?_, ?_, ?_, rfl, rfl⟩ <;>
    rw [hdata] <;>
    simp [List.mem_filter, gitFlagOn]

/-- The accumulated output of format_jj is empty after the on-symbol
part exactly when that part is switched off. -/
theorem jjOut1_empty_iff (cfg : Config) :
    (jjOut1 cfg = "") ↔ cfg.jj_display.show_pfx = false := by
  by_cases hp : cfg.jj_display.show_pfx <;>
    simp [jjOut1, hp, on_append_ne_empty]

/-- With a nonempty rendered name, the accumulated output of format_jj
is empty after the name segment exactly when both leading sections are
switched off. -/
theorem jjOut2_empty_iff (info : JjInfo) (cfg : Config)
    (h : jjName info cfg ≠ "") :
    (jjOut2 info cfg = "") ↔
      (cfg.jj_display.show_pfx = false ∧ cfg.jj_display.show_name = false) := by
  by_cases hn : cfg.jj_display.show_name <;>
    by_cases hp : cfg.jj_display.show_pfx <;>
    simp [jjOut2, jjOut1, hp, hn, append_eq_empty_iff, on_append_ne_empty,
      formatSegment_ne_empty _ _ _ h]

/-- With a nonempty rendered name, the accumulated output of format_jj
is empty after the id segment exactly when all three leading sections
emit nothing. -/
theorem jjOut3_empty_iff (info : JjInfo) (cfg : Config)
    (h : jjName info cfg ≠ "") :
    (jjOut3 info cfg = "") ↔
      (cfg.jj_display.show_pfx = false ∧ cfg.jj_display.show_name = false ∧
        ¬(cfg.jj_display.show_id = true ∧ jjName info cfg ≠ info.change_id)) := by
  by_cases hid : cfg.jj_display.show_id = true ∧ jjName info cfg ≠ info.change_id
  · have hseg : formatSegment ("(" ++ info.change_id ++ ")") GREEN
        cfg.jj_display.show_color ≠ "" :=
      formatSegment_ne_empty _ _ _ (by simp [append_eq_empty_iff])
    simp [jjOut3, hid, append_eq_empty_iff, hseg]
  · simp [jjOut3, hid, jjOut2_empty_iff info cfg h]

/-- Structural form of format_jj: with a nonempty rendered name, the
output is the canonical join of the four segments, each rendered through
format_segment with the configured color switch. -/
theorem format_jj_eq_wrapJoin (info : JjInfo) (cfg : Config)
    (h : jjName info cfg ≠ "") :
    format_jj info cfg
      = jjWrapJoin info cfg
          (fun t c => formatSegment t c cfg.jj_display.show_color) := by
  have hpar : ("(" ++ (info.change_id ++ ")") : String) ≠ "" := by
    simp [append_eq_empty_iff]
  by_cases hp : cfg.jj_display.show_pfx = true <;>
    by_cases hn : cfg.jj_display.show_name = true <;>
    by_cases hid : cfg.jj_display.show_id = true
      ∧ jjName info cfg ≠ info.change_id <;>
    by_cases hst : cfg.jj_display.show_status = true ∧ jjStatusStr info ≠ "" <;>
    simp [format_jj, jjStatusApply, jjWrapJoin, jjOut3, jjOut2, jjOut1,
      hp, hn, hid, hst, append_eq_empty_iff, on_append_ne_empty,
      formatSegment_ne_empty _ _ _ h, formatSegment_ne_empty _ _ _ hpar,
      String.append_assoc]

/-- C8: for every snapshot whose rendered name is nonempty, which the
data-model invariant of the spec guarantees, the prompt with color off
and the prompt with color on are the same join of the same visible
segment texts, the colored one wrapping each segment in exactly a
leading color marker and a trailing reset marker; so disabling color
removes exactly those markers and preserves every visible character. -/
theorem jj_color_law (info : JjInfo) (cfg : Config)
    (h : jjName info cfg ≠ "") :
    format_jj info
        { cfg with jj_display := { cfg.jj_display with show_color := false } }
      = jjWrapJoin info cfg (fun t _ => t) ∧
    format_jj info
        { cfg with jj_display := { cfg.jj_display with show_color := true } }
      = jjWrapJoin info cfg (fun t c => c ++ t ++ RESET) := by
  constructor
  · rw [format_jj_eq_wrapJoin info
      { cfg with jj_display := { cfg.jj_display with show_color := false } } h]
    rfl
  · rw [format_jj_eq_wrapJoin info
      { cfg with jj_display := { cfg.jj_display with show_color := true } } h]
    rfl

/-- C8 witness: the color law evaluated on a concrete snapshot and
configuration. -/
theorem jj_color_law_witness :
    format_jj infoW
        { cfgPlain with jj_display :=
            { cfgPlain.jj_display with show_color := false } }
      = jjWrapJoin infoW cfgPlain (fun t _ => t) ∧
    format_jj infoW
        { cfgPlain with jj_display :=
            { cfgPlain.jj_display with show_color := true } }
      = jjWrapJoin infoW cfgPlain (fun t c => c ++ t ++ RESET) :=
  jj_color_law infoW cfgPlain (by decide)

/-- C1 counterexample: a snapshot with a bookmark whose text equals the
change id. With show_id on, the formatted prompt carries no parenthesized
id segment: it equals on main, contains no parenthesis character at all,
and coincides with the prompt formatted with show_id off, refuting the
claim that a bookmarked snapshot always shows the id segment. -/
theorem jj_id_dedup_counterexample :
    infoDup.bookmark = some "main" ∧
    cfgPlain.jj_display.show_id = true ∧
    format_jj infoDup cfgPlain = "on main" ∧
    (format_jj infoDup cfgPlain).data.contains '(' = false ∧
    format_jj infoDup cfgPlain
      = format_jj infoDup
          { cfgPlain with jj_display :=
              { cfgPlain.jj_display with show_id := false } } := by
  refine ⟨rfl, rfl, ?_, ?_, ?_⟩ <;> decide

/-- C1 (amended): with show_id on, the id segment is rendered exactly
when the rendered name differs from the change id: with no bookmark the
output always equals the id-suppressed output; the same holds when a
bookmark exists but its truncation equals the change id verbatim; and
when a bookmark exists whose truncation differs from the change id the
output carries the parenthesized id segment after the accumulated
earlier sections. -/
theorem jj_id_dedup_amended (info : JjInfo) (cfg : Config) :
    (info.bookmark = none →
      format_jj info cfg
        = format_jj info
            { cfg with jj_display :=
                { cfg.jj_display with show_id := false } }) ∧
    (∀ bm, info.bookmark = some bm → cfg.truncate bm = info.change_id →
      format_jj info cfg
        = format_jj info
            { cfg with jj_display :=
                { cfg.jj_display with show_id := false } }) ∧
    (∀ bm, info.bookmark = some bm → cfg.truncate bm ≠ info.change_id →
      cfg.jj_display.show_id = true →
      format_jj info cfg
        = jjStatusApply info cfg
            ((if jjOut2 info cfg ≠ "" then jjOut2 info cfg ++ " "
              else jjOut2 info cfg)
              ++ formatSegment ("(" ++ info.change_id ++ ")") GREEN
                  cfg.jj_display.show_color)) := by
  refine ⟨?_, ?_, ?_⟩
  · intro hb
    simp [format_jj, jjStatusApply, jjOut3, jjOut2, jjOut1, jjName, hb,
      Config.truncate]
  · intro bm hb heq
    have hcond : ¬(cfg.jj_display.show_id = true
        ∧ jjName info cfg ≠ info.change_id) := by
      simp [jjName, hb, heq]
    have hcond2 : ¬(({ cfg with jj_display :=
          { cfg.jj_display with show_id := false } } : Config).jj_display.show_id
          = true
        ∧ jjName info { cfg with jj_display :=
            { cfg.jj_display with show_id := false } } ≠ info.change_id) := by
      simp
    simp only [format_jj, jjOut3]
    rw [if_neg hcond, if_neg hcond2]
    rfl
  · intro bm hb hne hshow
    simp only [format_jj, jjOut3, jjName, hb]
    rw [if_pos ⟨hshow, hne⟩]

/-- C1 witness: on a concrete snapshot with bookmark feature and change
id yzxv1234, the id segment is rendered. -/
theorem jj_id_dedup_witness :
    format_jj infoW cfgPlain
      = jjStatusApply infoW cfgPlain
          ((if jjOut2 infoW cfgPlain ≠ "" then jjOut2 infoW cfgPlain ++ " "
            else jjOut2 infoW cfgPlain)
            ++ formatSegment ("(" ++ infoW.change_id ++ ")") GREEN
                cfgPlain.jj_display.show_color) :=
  (jj_id_dedup_amended infoW cfgPlain).2.2 "feature" rfl (by decide) rfl

end JjStarship
